import Mathlib

/-!
Shallow embedding of two build-support utilities:

* `buildscripts/bazel_rules_mongo/utils/evergreen_git.py` (diff resolver), and
* `buildscripts/install_bazel.py` (binary bootstrapper).

Python strings are modelled as `String` with helper operations implemented on
`List Char` so that every definition evaluates inside the kernel.  Python
exceptions are modelled by the `PyError` type and fallible code returns
`Except PyError`.  External collaborators (the git repository, the filesystem,
the network, the platform) are modelled as explicit environment records; the
side effects of a run (executed git commands, downloads, chmods, symlinks) are
recorded in explicit traces.
-/

/-- Python exception values, tagged by their class.  The payload is the
stringified message. -/
inductive PyError where
  | runtimeError (msg : String)
  | assertionError (msg : String)
  | typeError (msg : String)
  | attributeError (msg : String)
  | indexError (msg : String)
  | keyError (msg : String)
  | exception (msg : String)
  | gitCommandError (msg : String)
deriving DecidableEq

/-- Decidable equality for `Except` results, so that runs of the embedded
functions can be checked on concrete inputs by evaluation. -/
instance {ε α : Type} [DecidableEq ε] [DecidableEq α] : DecidableEq (Except ε α) := fun a b =>
  match a, b with
  | .ok x, .ok y => if h : x = y then .isTrue (by simp [h]) else .isFalse (by simp [h])
  | .ok _, .error _ => .isFalse (by simp)
  | .error _, .ok _ => .isFalse (by simp)
  | .error x, .error y => if h : x = y then .isTrue (by simp [h]) else .isFalse (by simp [h])

/-- A small universe of Python values, enough for the expansions mapping:
`None`, booleans and strings. -/
inductive PyVal where
  | vNone
  | vBool (b : Bool)
  | vStr (s : String)
deriving DecidableEq

/-- Python truthiness for the values of `PyVal`: `None` is falsy, a boolean is
itself, a string is truthy iff nonempty. -/
def PyVal.truthy : PyVal → Bool
  | .vNone => false
  | .vBool b => b
  | .vStr s => s != ""

/-- Splitting a character list at every occurrence of a separator character;
mirrors Python `str.split(sep)` for a one-character separator (in particular
the result is never empty and keeps empty segments). -/
def splitOnChar (sep : Char) : List Char → List (List Char)
  | [] => [[]]
  | c :: rest =>
    let r := splitOnChar sep rest
    if c = sep then [] :: r
    else
      match r with
      | [] => [[c]]
      | h :: t => (c :: h) :: t

/-- Python `sep.split` on strings, for a one-character separator. -/
def pySplit (s : String) (sep : Char) : List String :=
  (splitOnChar sep s.toList).map (fun l => String.mk l)

/-- Python `s.startswith(p)`. -/
def pyStartsWith (s p : String) : Bool :=
  p.toList.isPrefixOf s.toList

/-- Python `s.endswith(p)`. -/
def pyEndsWith (s p : String) : Bool :=
  p.toList.isSuffixOf s.toList

/-- Python `s[:-n]` for `0 < n ≤ len(s)`: drop the last `n` characters. -/
def pyDropRight (s : String) (n : Nat) : String :=
  String.mk (s.toList.take (s.toList.length - n))

/-- Python substring containment `pat in s`. -/
def listContainsSub (s pat : List Char) : Bool :=
  match s with
  | [] => pat.isEmpty
  | c :: rest => pat.isPrefixOf (c :: rest) || listContainsSub rest pat

/-- Python `pat in s` on strings. -/
def pyContainsSub (s pat : String) : Bool :=
  listContainsSub s.toList pat.toList

namespace EvergreenGit

/-- A configured git remote: a name and a URL, as exposed by the repository
collaborator. -/
structure GRemote where
  name : String
  url : String
deriving DecidableEq

/-- The git repository collaborator used by `evergreen_git.py`: configured
remotes in order, local branch names in order, the remote-tracking references
(name, tip commit), the current HEAD commit and the merge-base computation
delegated to git. -/
structure Repo where
  remotes : List GRemote
  branches : List String
  refsCommit : List (String × String)
  headCommit : String
  gitMergeBase : String → String → String

/-- The fixed allow-list of organization owners in `get_mongodb_remote`. -/
def mongoOrgs : List String :=
  ["10gen", "mongodb", "evergreen-ci", "mongodb-ets", "realm", "mongodb-js"]

/-- The URL scheme markers accepted by `get_mongodb_remote`
(`remote_prefixes` in the source). -/
def remoteUrlMarkers : List String :=
  ["http://", "https://", "ssh://", "git@"]

/-- The `for remote in remotes` loop of `get_mongodb_remote`: skip remotes
whose URL starts with no accepted scheme marker, strip a trailing `.git`,
assert the URL splits on `/` into at least two parts, extract the owner
segment (`parts[-2].split(":")[-1]`) and stop at the first remote whose owner
is in the allow-list.  Returns `none` when the loop finishes without a pick. -/
def scanRemotes : List GRemote → Except PyError (Option GRemote)
  | [] => .ok none
  | r :: rest =>
    if !(remoteUrlMarkers.any (fun p => pyStartsWith r.url p)) then
      scanRemotes rest
    else
      let url := if pyEndsWith r.url ".git" then pyDropRight r.url 4 else r.url
      let parts := pySplit url '/'
      if parts.length ≥ 2 then
        let owner := (pySplit (parts.getD (parts.length - 2) "") ':').getLastD ""
        if mongoOrgs.contains owner then .ok (some r) else scanRemotes rest
      else
        .error (.assertionError ("Unexpected git remote url: " ++ url))

/-- `get_mongodb_remote(repo)`.  When the scan picks no remote, the source
runs `picked_remote = next(repo.remotes)`.  `repo.remotes` is a GitPython
`IterableList`, a subclass of `list`; a list is an iterable but not an
iterator, so the builtin `next` raises
`TypeError: \x27IterableList\x27 object is not an iterator` there, for an
empty remote list as well as a nonempty one.  Consequently the subsequent
`if picked_remote is None: raise RuntimeError("Could not find valid remote")`
guard of the source is unreachable and no corresponding branch exists in this
embedding. -/
def get_mongodb_remote (repo : Repo) : Except PyError GRemote :=
  match scanRemotes repo.remotes with
  | .error e => .error e
  | .ok (some r) => .ok r
  | .ok none => .error (.typeError "\x27IterableList\x27 object is not an iterator")

/-- The `for branch in repo.branches` loop of `get_remote_branch_ref`, with
the Python scoping of the loop variable made explicit: the loop variable
shadows the `branch` parameter, so after a loop that never hits `break` the
variable holds the **last** iterated branch (GitPython formats a branch
reference as its name), and it is `None` after the loop only when the branch
list was empty.  Returns the first branch named `main` or `master` when one
exists, otherwise the last branch, and `none` only for an empty list. -/
def branchLoop : List String → Option String
  | [] => none
  | b :: rest =>
    if b == "main" || b == "master" then some b
    else
      match branchLoop rest with
      | some r => some r
      | none => some b

/-- `get_remote_branch_ref(repo, branch=None)`: infer the branch via
`branchLoop` when the argument is absent (raising
`RuntimeError("Could not infer correct branch name")` only when the loop left
the variable at `None`, i.e. only for a repository with zero local branches),
pick a remote with `get_mongodb_remote`, look up the remote-tracking reference
`"<remote>/<branch>"` (GitPython raises `IndexError` when the reference does
not exist) and return the merge-base of HEAD and the remote tip. -/
def get_remote_branch_ref (repo : Repo) (branch : Option String) : Except PyError String :=
  let b? :=
    match branch with
    | some b => some b
    | none => branchLoop repo.branches
  match b? with
  | none => .error (.runtimeError "Could not infer correct branch name")
  | some b =>
    match get_mongodb_remote repo with
    | .error e => .error e
    | .ok picked =>
      match List.lookup (picked.name ++ "/" ++ b) repo.refsCommit with
      | none => .error (.indexError ("No item found with id " ++ picked.name ++ "/" ++ b))
      | some remoteHead => .ok (repo.gitMergeBase repo.headCommit remoteHead)

/-- An expansions document: a key/value mapping of Python values. -/
abbrev Expansions := List (String × PyVal)

/-- Python `mapping.get(key, None)`. -/
def expGet (e : Expansions) (k : String) : PyVal :=
  match List.lookup k e with
  | some v => v
  | none => .vNone

/-- The environment of the diff resolver: the repository, the expansions
files present on disk (path to parsed document) and the output of
`git rev-parse HEAD^1`. -/
structure GitEnv where
  repo : Repo
  expansionsFiles : List (String × Expansions)
  headParentRev : String

/-- `get_expansions(expansions_file)`: `None` or an empty path yields `None`
(`if not expansions_file`); a non-empty path missing on disk raises
`RuntimeError`; otherwise the parsed document is returned.  The `functools`
cache on the source function memoizes a pure read and is modelled as a pure
lookup. -/
def get_expansions (env : GitEnv) (expansions_file : Option String) :
    Except PyError (Option Expansions) :=
  match expansions_file with
  | none => .ok none
  | some p =>
    if p = "" then .ok none
    else
      match List.lookup p env.expansionsFiles with
      | none => .error (.runtimeError ("Expansions file not found at " ++ p))
      | some e => .ok (some e)

/-- A trace of executed git commands (argument vectors of
`repo.git.execute`). -/
abbrev Trace := List (List String)

/-- The body of `get_diff_revision` without its cache: `in_ci` is
`expansions_file is not None`; outside CI the resolution delegates to
`get_remote_branch_ref`; in CI the expansions are loaded (note that a loaded
`None` document makes `expansions.get` raise `AttributeError`), a truthy
`is_patch` stages the working tree (`git add .`) and takes
`expansions.get("revision")`, otherwise the baseline is `git rev-parse
HEAD^1`; finally `assert diff_commit` fails on a falsy baseline.  Returns the
result together with the trace of executed git commands. -/
def compute_diff_revision (env : GitEnv) (expansions_file branch : Option String) :
    Except PyError PyVal × Trace :=
  if expansions_file.isNone then
    match get_remote_branch_ref env.repo branch with
    | .error e => (.error e, [])
    | .ok c =>
      if (PyVal.vStr c).truthy then (.ok (.vStr c), [])
      else (.error (.assertionError "ERROR: not able to obtain diff commit"), [])
  else
    match get_expansions env expansions_file with
    | .error e => (.error e, [])
    | .ok none =>
      (.error (.attributeError "\x27NoneType\x27 object has no attribute \x27get\x27"), [])
    | .ok (some exps) =>
      if (expGet exps "is_patch").truthy then
        let tr : Trace := [["git", "add", "."]]
        let dc := expGet exps "revision"
        if dc.truthy then (.ok dc, tr)
        else (.error (.assertionError "ERROR: not able to obtain diff commit"), tr)
      else
        let tr : Trace := [["git", "rev-parse", "HEAD^1"]]
        let dc := PyVal.vStr env.headParentRev
        if dc.truthy then (.ok dc, tr)
        else (.error (.assertionError "ERROR: not able to obtain diff commit"), tr)

/-- The process-lifetime state of the `functools` cache on
`get_diff_revision`: the memo table keyed by the argument pair, a counter of
how many times the underlying computation actually ran, and the accumulated
trace of executed git commands. -/
structure DiffRevState where
  cache : List ((Option String × Option String) × PyVal)
  computeCount : Nat
  trace : Trace
deriving DecidableEq

/-- The cache state at process start: empty. -/
def diffRevInit : DiffRevState := ⟨[], 0, []⟩

/-- `get_diff_revision(expansions_file=None, branch=None)` with its
`functools` cache made explicit: a hit returns the cached value and leaves the
state unchanged; a miss runs `compute_diff_revision`, records its trace,
bumps the computation counter, and stores the value in the memo table on
success (`functools.cache` does not cache raised exceptions). -/
def get_diff_revision (env : GitEnv) (expansions_file branch : Option String)
    (st : DiffRevState) : Except PyError PyVal × DiffRevState :=
  match List.lookup (expansions_file, branch) st.cache with
  | some v => (.ok v, st)
  | none =>
    match compute_diff_revision env expansions_file branch with
    | (.ok v, tr) =>
      (.ok v,
        { cache := ((expansions_file, branch), v) :: st.cache,
          computeCount := st.computeCount + 1,
          trace := st.trace ++ tr })
    | (.error e, tr) =>
      (.error e,
        { cache := st.cache,
          computeCount := st.computeCount + 1,
          trace := st.trace ++ tr })

/-- The environment of `get_file_at_revision`: the outcome of
`git show <revision>:<file>`, either the file content or the stringified
exception message. -/
structure FileEnv where
  gitShow : String → String → Except String String

/-- The message git emits when a path is absent at a revision, as matched by
the source: `path \x27<file>\x27 does not exist in \x27<revision>\x27`. -/
def pathMissingMsg (file revision : String) : String :=
  "path \x27" ++ file ++ "\x27 does not exist in \x27" ++ revision ++ "\x27"

/-- `get_file_at_revision(file, revision)`: run `git show revision:file`;
on success return the content; on failure return `None` when the exception
message contains the path-missing message, otherwise re-raise. -/
def get_file_at_revision (env : FileEnv) (file revision : String) :
    Except PyError (Option String) :=
  match env.gitShow revision file with
  | .ok content => .ok (some content)
  | .error msg =>
    if pyContainsSub msg (pathMissingMsg file revision) then .ok none
    else .error (.gitCommandError msg)

end EvergreenGit

namespace InstallBazel

/-- Fuel-bounded left-to-right replacement of non-overlapping occurrences of
`pat` by `rep`; mirrors Python `str.replace` for a nonempty `pat` when the
fuel is at least the length of the input. -/
def replaceListAux (pat rep : List Char) : Nat → List Char → List Char
  | 0, s => s
  | _ + 1, [] => []
  | fuel + 1, c :: rest =>
    if !pat.isEmpty && pat.isPrefixOf (c :: rest) then
      rep ++ replaceListAux pat rep fuel ((c :: rest).drop pat.length)
    else
      c :: replaceListAux pat rep fuel rest

/-- Python `s.replace(pat, rep)` for a nonempty `pat`. -/
def pyReplace (s pat rep : String) : String :=
  String.mk (replaceListAux pat.toList rep.toList s.toList.length s.toList)

/-- Python `s.lower()`. -/
def pyLower (s : String) : String :=
  String.mk (s.toList.map Char.toLower)

/-- Python `os.path.join(d, f)` on a POSIX path without a trailing slash. -/
def pjoin (d f : String) : String :=
  d ++ "/" ++ f

/-- The host environment of `install_bazel.py`: `platform.system()`,
`platform.machine()`, `sys.platform`, and the SHA-256 digest of the bytes
served at each URL (downloads are modelled as always completing, the retry
loop of `_download_path_with_retry` being invisible on success). -/
structure SysEnv where
  pltSystem : String
  machine : String
  sysPlatform : String
  urlHash : String → String

/-- An observable filesystem side effect of the bootstrapper. -/
inductive FsEvent where
  | download (url : String) (dest : String)
  | verifyHash (url : String) (path : String)
  | chmod (path : String) (mode : Nat)
  | copyFile (src : String) (dst : String)
  | symlink (target : String) (linkPath : String)
deriving DecidableEq

/-- The filesystem state: which paths exist (`os.path.exists`), the last
chmod-ed mode per path, the SHA-256 digest of each file, the symlinks
(link path to target) and the ordered trace of performed events. -/
structure FsState where
  files : List String
  modes : List (String × Nat)
  hashes : List (String × String)
  links : List (String × String)
  events : List FsEvent
deriving DecidableEq

/-- A filesystem with no recorded events; `files`, `modes` and `hashes`
describe whatever is already on disk. -/
def emptyFs : FsState := ⟨[], [], [], [], []⟩

/-- Python `os.path.exists(p)`. -/
def fsExists (st : FsState) (p : String) : Bool :=
  st.files.contains p

/-- `urllib.request.urlretrieve(url, dest)`: the destination now exists and
holds the bytes served at `url`. -/
def fsDownload (env : SysEnv) (st : FsState) (url dest : String) : FsState :=
  { st with
    files := dest :: st.files,
    hashes := (dest, env.urlHash url) :: st.hashes,
    events := st.events ++ [.download url dest] }

/-- Python `os.chmod(p, mode)`. -/
def fsChmod (st : FsState) (p : String) (mode : Nat) : FsState :=
  { st with
    modes := (p, mode) :: st.modes,
    events := st.events ++ [.chmod p mode] }

/-- Python `shutil.copyfile(src, dst)`. -/
def fsCopyFile (st : FsState) (src dst : String) : FsState :=
  { st with
    files := dst :: st.files,
    events := st.events ++ [.copyFile src dst] }

/-- Python `os.symlink(target, linkPath)`. -/
def fsSymlink (st : FsState) (target linkPath : String) : FsState :=
  { st with
    files := linkPath :: st.files,
    links := (linkPath, target) :: st.links,
    events := st.events ++ [.symlink target linkPath] }

/-- `stat.S_IRUSR`. -/
def S_IRUSR : Nat := 0o400
/-- `stat.S_IWUSR`. -/
def S_IWUSR : Nat := 0o200
/-- `stat.S_IXUSR`. -/
def S_IXUSR : Nat := 0o100
/-- `stat.S_IRGRP`. -/
def S_IRGRP : Nat := 0o40
/-- `stat.S_IWGRP`. -/
def S_IWGRP : Nat := 0o20
/-- `stat.S_IXGRP`. -/
def S_IXGRP : Nat := 0o10
/-- `stat.S_IROTH`. -/
def S_IROTH : Nat := 0o4
/-- `stat.S_IWOTH`, present in `stat` but never used by the source. -/
def S_IWOTH : Nat := 0o2
/-- `stat.S_IXOTH`. -/
def S_IXOTH : Nat := 0o1

/-- The mode `install_buildozer` sets on the downloaded buildozer:
`stat.S_IRUSR | stat.S_IWUSR | stat.S_IXUSR`. -/
def buildozerPerms : Nat := S_IRUSR ||| S_IWUSR ||| S_IXUSR

/-- The mode `_set_bazel_permissions` sets on the launcher:
`S_IXUSR | S_IXGRP | S_IXOTH | S_IRUSR | S_IRGRP | S_IROTH | S_IWUSR |
S_IWGRP` exactly as in the source (note the absence of `S_IWOTH`). -/
def bazelPerms : Nat :=
  S_IXUSR ||| S_IXGRP ||| S_IXOTH ||| S_IRUSR ||| S_IRGRP ||| S_IROTH ||| S_IWUSR ||| S_IWGRP

/-- `_set_bazel_permissions(binary_path)`. -/
def set_bazel_permissions (st : FsState) (binary_path : String) : FsState :=
  fsChmod st binary_path bazelPerms

/-- `determine_platform()`. -/
def determine_platform (env : SysEnv) : Option String :=
  if env.pltSystem == "Darwin" then some "darwin"
  else if env.pltSystem == "Windows" then some "windows"
  else if env.pltSystem == "Linux" then some "linux"
  else none

/-- `determine_architecture()`. -/
def determine_architecture (env : SysEnv) : Option String :=
  if env.machine == "AMD64" || env.machine == "x86_64" then some "amd64"
  else if env.machine == "arm" || env.machine == "arm64" || env.machine == "aarch64" then
    some "arm64"
  else none

/-- `BUILDOZER_RELEASE_URL`. -/
def BUILDOZER_RELEASE_URL : String :=
  "https://github.com/bazelbuild/buildtools/releases/download/v7.3.1/"

/-- `install_buildozer(download_location)`: skip (returning `None`) on an
unsupported platform or architecture and on windows/arm64; otherwise download
`buildozer-<os>-<arch><ext>` to `<download_location>/buildozer<ext>` and chmod
it to owner read/write/execute. -/
def install_buildozer (env : SysEnv) (download_location : String) (st : FsState) :
    Option String × FsState :=
  match determine_platform env, determine_architecture env with
  | some operating_system, some architechture =>
    if operating_system == "windows" && architechture == "arm64" then (none, st)
    else
      let extension := if operating_system == "windows" then ".exe" else ""
      let binary_name := "buildozer-" ++ operating_system ++ "-" ++ architechture ++ extension
      let url := BUILDOZER_RELEASE_URL ++ binary_name
      let file_location := pjoin download_location ("buildozer" ++ extension)
      let st1 := fsDownload env st url file_location
      let st2 := fsChmod st1 file_location buildozerPerms
      (some file_location, st2)
  | _, _ => (none, st)

/-- `_S3_HASH_MAPPING`: the hard-coded table of expected SHA-256 digests,
keyed by exact source URL. -/
def S3_HASH_MAPPING : List (String × String) :=
  [("https://mdb-build-public.s3.amazonaws.com/bazelisk-binaries/v1.19.0/bazelisk-darwin-amd64",
    "f2ba5f721a995b54bab68c6b76a340719888aa740310e634771086b6d1528ecd"),
   ("https://mdb-build-public.s3.amazonaws.com/bazelisk-binaries/v1.19.0/bazelisk-darwin-arm64",
    "69fa21cd2ccffc2f0970c21aa3615484ba89e3553ecce1233a9d8ad9570d170e"),
   ("https://mdb-build-public.s3.amazonaws.com/bazelisk-binaries/v1.19.0/bazelisk-linux-amd64",
    "d28b588ac0916abd6bf02defb5433f6eddf7cba35ffa808eabb65a44aab226f7"),
   ("https://mdb-build-public.s3.amazonaws.com/bazelisk-binaries/v1.19.0/bazelisk-linux-arm64",
    "861a16ba9979613e70bd3d2f9d9ab5e3b59fe79471c5753acdc9c431ab6c9d94"),
   ("https://mdb-build-public.s3.amazonaws.com/bazelisk-binaries/v1.19.0/bazelisk-windows-amd64.exe",
    "d04555245a99dfb628e33da24e2b9198beb8f46d7e7661c313eb045f6a59f5e4")]

/-- `_verify_s3_hash(s3_path, local_path)`: compute the SHA-256 of the local
file (`_sha256_file`), look the URL up in `_S3_HASH_MAPPING` (a missing key
raises `KeyError` in Python) and raise `Exception("Hash mismatch ...")` on a
mismatch.  The performed verification is recorded as an event. -/
def verify_s3_hash (st : FsState) (s3_path local_path : String) :
    Except PyError FsState :=
  let hash_string :=
    match List.lookup local_path st.hashes with
    | some h => h
    | none => ""
  let st1 := { st with events := st.events ++ [.verifyHash s3_path local_path] }
  match List.lookup s3_path S3_HASH_MAPPING with
  | none => .error (.keyError s3_path)
  | some expected =>
    if hash_string == expected then .ok st1
    else
      .error (.exception ("Hash mismatch for " ++ s3_path ++ ", expected " ++ expected ++
        " but got " ++ hash_string))

/-- The `normalized_arch` local of `install_bazel`:
`platform.machine().lower().replace("aarch64", "arm64").replace("x86_64",
"amd64")`. -/
def normalized_arch (env : SysEnv) : String :=
  pyReplace (pyReplace (pyLower env.machine) "aarch64" "arm64") "x86_64" "amd64"

/-- The `normalized_os` local of `install_bazel`:
`sys.platform.replace("win32", "windows").replace("darwin", "macos")`. -/
def normalized_os (env : SysEnv) : String :=
  pyReplace (pyReplace env.sysPlatform "win32" "windows") "darwin" "macos"

/-- The `s3_path` URL `install_bazel` downloads the launcher from. -/
def bazeliskUrl (env : SysEnv) : String :=
  let nos := normalized_os env
  let ext := if nos == "windows" then ".exe" else ""
  let os_str := pyReplace nos "macos" "darwin"
  "https://mdb-build-public.s3.amazonaws.com/bazelisk-binaries/v1.19.0/bazelisk-" ++
    os_str ++ "-" ++ normalized_arch env ++ ext

/-- `install_bazel(binary_directory)`: first run `install_buildozer`; when
`<binary_directory>/bazelisk` already exists, only reset its permissions and
return its path; otherwise, on a bazelisk-supported architecture download the
launcher from `bazeliskUrl`, verify its hash and set permissions; on
ppc64le/s390x copy the in-repo `bazel/bazelisk.py` fallback instead (the
source computes that path from `__file__`; it is modelled as the constant
repository-relative path). -/
def install_bazel (env : SysEnv) (binary_directory : String) (st : FsState) :
    Except PyError (String × FsState) :=
  let st0 := (install_buildozer env binary_directory st).2
  let na := normalized_arch env
  let is_bazelisk_supported := !(["ppc64le", "s390x"].contains na)
  let binary_path := pjoin binary_directory "bazelisk"
  if fsExists st0 binary_path then
    .ok (binary_path, set_bazel_permissions st0 binary_path)
  else if is_bazelisk_supported then
    let s3_path := bazeliskUrl env
    let st1 := fsDownload env st0 s3_path binary_path
    match verify_s3_hash st1 s3_path binary_path with
    | .error e => .error e
    | .ok st2 => .ok (binary_path, set_bazel_permissions st2 binary_path)
  else
    let st1 := fsCopyFile st0 "bazel/bazelisk.py" binary_path
    .ok (binary_path, set_bazel_permissions st1 binary_path)

/-- The alias path `create_bazel_to_bazelisk_symlink` works with:
`<binary_directory>/bazel.exe` on win32, `<binary_directory>/bazel`
elsewhere. -/
def bazelAliasPath (env : SysEnv) (binary_directory : String) : String :=
  pjoin binary_directory (if env.sysPlatform == "win32" then "bazel.exe" else "bazel")

/-- `create_bazel_to_bazelisk_symlink(binary_directory)`: when a file already
exists at the alias path, skip creation and return the path unchanged;
otherwise create a symlink from the alias to
`<binary_directory>/bazelisk`. -/
def create_bazel_to_bazelisk_symlink (env : SysEnv) (binary_directory : String)
    (st : FsState) : String × FsState :=
  let bazel_symlink := bazelAliasPath env binary_directory
  if fsExists st bazel_symlink then (bazel_symlink, st)
  else (bazel_symlink, fsSymlink st (pjoin binary_directory "bazelisk") bazel_symlink)

/-- Whether an event reads or writes the file at path `p`. -/
def eventTouches (p : String) : FsEvent → Bool
  | .download _ dest => dest == p
  | .verifyHash _ path => path == p
  | .chmod path _ => path == p
  | .copyFile _ dst => dst == p
  | .symlink _ linkPath => linkPath == p

/-- Whether an event is a SHA-256 integrity verification. -/
def isVerifyEvent : FsEvent → Bool
  | .verifyHash _ _ => true
  | _ => false

end InstallBazel

open EvergreenGit InstallBazel

/-! Concrete repositories, environments and states used to evaluate the
embedded functions on explicit inputs. -/

/-- A repository whose local branches contain neither `main` nor `master`,
with an allow-listed remote and a remote-tracking reference for the last
local branch. -/
def repoC1 : Repo :=
  { remotes := [⟨"origin", "git@github.com:mongodb/mongo.git"⟩],
    branches := ["dev", "feature"],
    refsCommit := [("origin/feature", "remote-tip-sha")],
    headCommit := "head-sha",
    gitMergeBase := fun _ _ => "merge-base-sha" }

/-- A repository whose only remote is a local filesystem path. -/
def repoC2 : Repo :=
  { remotes := [⟨"origin", "/home/user/repos/mongo"⟩],
    branches := ["main"],
    refsCommit := [],
    headCommit := "head-sha",
    gitMergeBase := fun _ _ => "merge-base-sha" }

/-- A repository with zero configured remotes. -/
def repoC3 : Repo :=
  { remotes := [],
    branches := ["main"],
    refsCommit := [],
    headCommit := "head-sha",
    gitMergeBase := fun _ _ => "merge-base-sha" }

/-- A placeholder repository for runs that never consult the repository
(the CI branch of the diff resolver). -/
def repoNull : Repo :=
  { remotes := [], branches := [], refsCommit := [], headCommit := "",
    gitMergeBase := fun _ _ => "" }

/-- A CI environment whose expansions file carries a truthy `is_patch` and
the revision `abc123`. -/
def envC4 : GitEnv :=
  { repo := repoNull,
    expansionsFiles := [("expansions.yml",
      [("is_patch", .vBool true), ("revision", .vStr "abc123")])],
    headParentRev := "parent-sha" }

/-- The cache state after the first `get_diff_revision` call in `envC4`. -/
def stC4 : DiffRevState :=
  { cache := [((some "expansions.yml", none), .vStr "abc123")],
    computeCount := 1,
    trace := [["git", "add", "."]] }

/-- A CI environment whose expansions file carries a truthy `is_patch` and
an empty `revision`. -/
def envC5c : GitEnv :=
  { repo := repoNull,
    expansionsFiles := [("expansions.yml",
      [("is_patch", .vBool true), ("revision", .vStr "")])],
    headParentRev := "parent-sha" }

/-- A CI environment identical to `envC4`, used by the C5 witness. -/
def envC5 : GitEnv :=
  { repo := repoNull,
    expansionsFiles := [("expansions.yml",
      [("is_patch", .vBool true), ("revision", .vStr "abc123")])],
    headParentRev := "parent-sha" }

/-- A repository on which branch delegation succeeds: a `main` branch, an
allow-listed remote and the matching remote-tracking reference. -/
def repoC6 : Repo :=
  { remotes := [⟨"origin", "https://github.com/mongodb/mongo.git"⟩],
    branches := ["main"],
    refsCommit := [("origin/main", "remote-main-sha")],
    headCommit := "head-sha",
    gitMergeBase := fun _ _ => "merge-base-sha" }

/-- An environment with no expansions file on disk, over `repoC6`. -/
def envC6 : GitEnv := { repo := repoC6, expansionsFiles := [], headParentRev := "parent-sha" }

/-- A git-show oracle that reports a missing path for `f.txt` at `abc123`
and an unrelated failure for every other query. -/
def envC7 : FileEnv :=
  { gitShow := fun rev file =>
      if rev = "abc123" ∧ file = "f.txt" then
        .error "Cmd(\x27git\x27) failed: fatal: path \x27f.txt\x27 does not exist in \x27abc123\x27"
      else .error "fatal: bad object xyz" }

/-- A linux/amd64 host whose downloads hash to the pinned linux-amd64
digest, so that the launcher download verifies successfully. -/
def envC8c : SysEnv :=
  { pltSystem := "Linux", machine := "x86_64", sysPlatform := "linux",
    urlHash := fun _ => "d28b588ac0916abd6bf02defb5433f6eddf7cba35ffa808eabb65a44aab226f7" }

/-- The result of a fresh `install_bazel` run in `envC8c`. -/
def installC8c : Except PyError (String × FsState) :=
  install_bazel envC8c "/home/u/.local/bin" emptyFs

/-- The mode of the installed launcher after `installC8c`. -/
def modeAfterC8c : Option Nat :=
  match installC8c with
  | .ok (p, stf) => List.lookup p stf.modes
  | .error _ => none

/-- The events performed by `installC8c`. -/
def eventsAfterC8c : List FsEvent :=
  match installC8c with
  | .ok (_, stf) => stf.events
  | .error _ => []

/-- The final filesystem state of `installC8c`, written out explicitly. -/
def stfC8w : FsState :=
  { files := ["/home/u/.local/bin/bazelisk", "/home/u/.local/bin/buildozer"],
    modes := [("/home/u/.local/bin/bazelisk", bazelPerms),
              ("/home/u/.local/bin/buildozer", buildozerPerms)],
    hashes := [("/home/u/.local/bin/bazelisk",
                "d28b588ac0916abd6bf02defb5433f6eddf7cba35ffa808eabb65a44aab226f7"),
               ("/home/u/.local/bin/buildozer",
                "d28b588ac0916abd6bf02defb5433f6eddf7cba35ffa808eabb65a44aab226f7")],
    links := [],
    events := [.download (BUILDOZER_RELEASE_URL ++ "buildozer-linux-amd64") "/home/u/.local/bin/buildozer",
               .chmod "/home/u/.local/bin/buildozer" buildozerPerms,
               .download (bazeliskUrl envC8c) "/home/u/.local/bin/bazelisk",
               .verifyHash (bazeliskUrl envC8c) "/home/u/.local/bin/bazelisk",
               .chmod "/home/u/.local/bin/bazelisk" bazelPerms] }

/-- A linux host for the symlink and pre-existing-launcher scenarios. -/
def envC9 : SysEnv :=
  { pltSystem := "Linux", machine := "x86_64", sysPlatform := "linux",
    urlHash := fun _ => "" }

/-- A filesystem on which a file already sits at the `bazel` alias path and
links to a foreign target. -/
def stC9 : FsState :=
  { files := ["/b/bazel"], modes := [], hashes := [],
    links := [("/b/bazel", "/usr/bin/old-bazelisk")], events := [] }

/-- A linux host for the C10 witness. -/
def envC10 : SysEnv :=
  { pltSystem := "Linux", machine := "x86_64", sysPlatform := "linux",
    urlHash := fun _ => "" }

/-- A filesystem on which the launcher already exists at its destination. -/
def stC10 : FsState :=
  { files := ["/home/u/.local/bin/bazelisk"], modes := [], hashes := [], links := [],
    events := [] }

/-! Theorems settling the claims. -/

/-- C1: the claim states that for every repository whose local branches
include none named exactly main or master, `get_remote_branch_ref` with the
branch argument omitted fails with `RuntimeError "Could not infer correct
branch name"` rather than resolving any other branch.  The code disagrees:
because the loop variable shadows the parameter, the guard fires only for a
repository with zero local branches; on `repoC1` (branches dev and feature)
the call instead resolves the last iterated branch and returns a merge-base
against `origin/feature`. -/
theorem get_remote_branch_ref_no_main_master_resolves_last_branch :
    repoC1.branches = ["dev", "feature"] ∧
    (∀ b ∈ repoC1.branches, b ≠ "main" ∧ b ≠ "master") ∧
    get_remote_branch_ref repoC1 none = .ok "merge-base-sha" ∧
    get_remote_branch_ref repoC1 none
      ≠ .error (.runtimeError "Could not infer correct branch name") := by
  refine ⟨rfl, by decide, by decide, by decide⟩

/-- C2: the claim states that with at least one configured remote, none
allow-listed (here a single local filesystem path), `get_mongodb_remote`
returns the first configured remote and does not raise.  The code disagrees:
the fallback `next(repo.remotes)` applies `next` to a list, which raises
`TypeError`, so the call raises and returns no remote at all. -/
theorem get_mongodb_remote_local_path_remote_raises_typeError :
    repoC2.remotes = [⟨"origin", "/home/user/repos/mongo"⟩] ∧
    get_mongodb_remote repoC2
      = .error (.typeError "\x27IterableList\x27 object is not an iterator") ∧
    (∀ r : GRemote, get_mongodb_remote repoC2 ≠ .ok r) := by
  refine ⟨rfl, by decide, ?_⟩
  intro r h
  rw [show get_mongodb_remote repoC2
      = .error (.typeError "\x27IterableList\x27 object is not an iterator") from by decide] at h
  exact Except.noConfusion h

/-- C3: the claim states that with zero configured remotes
`get_mongodb_remote` fails with `RuntimeError "Could not find valid
remote"`.  The code disagrees: the `TypeError` from `next(repo.remotes)` is
raised first, so the `RuntimeError` guard is unreachable. -/
theorem get_mongodb_remote_zero_remotes_raises_typeError :
    repoC3.remotes = [] ∧
    get_mongodb_remote repoC3
      = .error (.typeError "\x27IterableList\x27 object is not an iterator") ∧
    get_mongodb_remote repoC3 ≠ .error (.runtimeError "Could not find valid remote") := by
  refine ⟨rfl, by decide, by decide⟩

/-- C4: two `get_diff_revision` calls with identical `(expansions_file,
branch)` arguments return the same revision value, the second call returns
the cached value leaving the state (cache, computation counter, command
trace) unchanged, and across both calls the underlying revision computation
ran at most once more than before the first call. -/
theorem get_diff_revision_memoized (env : GitEnv) (ef b : Option String)
    (st0 st1 : DiffRevState) (v : PyVal)
    (h : get_diff_revision env ef b st0 = (.ok v, st1)) :
    get_diff_revision env ef b st1 = (.ok v, st1) ∧
      st1.computeCount ≤ st0.computeCount + 1 := by
  unfold get_diff_revision at h ⊢
  cases hl : List.lookup (ef, b) st0.cache with
  | some w =>
    rw [hl] at h
    simp only [Prod.mk.injEq, Except.ok.injEq] at h
    obtain ⟨hv, hst⟩ := h
    subst hv
    subst hst
    rw [hl]
    exact ⟨rfl, Nat.le_succ _⟩
  | none =>
    rw [hl] at h
    rcases hc : compute_diff_revision env ef b with ⟨r, tr⟩
    rw [hc] at h
    cases r with
    | ok w =>
      simp only [Prod.mk.injEq, Except.ok.injEq] at h
      obtain ⟨hv, hst⟩ := h
      subst hv
      rw [← hst]
      simp only [List.lookup, beq_self_eq_true]
      exact ⟨trivial, Nat.le_refl _⟩
    | error e =>
      simp at h

/-- C4 witness: a concrete CI run in `envC4` whose first call computes
`abc123` reaching state `stC4`, after which a second identical call returns
the cached value and leaves `stC4` unchanged. -/
theorem get_diff_revision_memoized_witness :
    get_diff_revision envC4 (some "expansions.yml") none stC4
        = (.ok (.vStr "abc123"), stC4) ∧
      stC4.computeCount ≤ diffRevInit.computeCount + 1 :=
  get_diff_revision_memoized envC4 (some "expansions.yml") none diffRevInit stC4
    (.vStr "abc123") (by decide)

/-- C5 counterexample: the claim quantifies over every revision string; at
the empty revision string the call does not return the revision but fails
the `assert diff_commit` with `AssertionError`, despite a truthy
`is_patch`. -/
theorem get_diff_revision_patch_empty_revision_asserts :
    (expGet [("is_patch", .vBool true), ("revision", .vStr "")] "is_patch").truthy = true ∧
    expGet [("is_patch", .vBool true), ("revision", .vStr "")] "revision" = .vStr "" ∧
    (get_diff_revision envC5c (some "expansions.yml") none diffRevInit).1
      = .error (.assertionError "ERROR: not able to obtain diff commit") := by
  refine ⟨by decide, by decide, by decide⟩

/-- Helper for C5: in CI with a truthy `is_patch` and a nonempty revision
string, the uncached computation stages the working tree and returns the
revision. -/
theorem compute_diff_revision_patch (env : GitEnv) (p : String) (b : Option String)
    (exps : Expansions) (r : String)
    (hp : p ≠ "")
    (hf : List.lookup p env.expansionsFiles = some exps)
    (hpatch : (expGet exps "is_patch").truthy = true)
    (hrev : expGet exps "revision" = .vStr r)
    (hr : r ≠ "") :
    compute_diff_revision env (some p) b = (.ok (.vStr r), [["git", "add", "."]]) := by
  have hrt : (PyVal.vStr r).truthy = true := by simp [PyVal.truthy, hr]
  simp [compute_diff_revision, get_expansions, hp, hf, hpatch, hrev, hrt]

/-- C5 (amended): for every CI invocation of `get_diff_revision` where the
loaded expansions map has a truthy `is_patch` and `revision` equal to some
**nonempty** string r, the call stages all working-tree changes into the
index (the trace contains the `git add .` command) and returns exactly r
verbatim; for the empty string the final assertion fails instead. -/
theorem get_diff_revision_patch_stages_and_returns_revision
    (env : GitEnv) (p : String) (b : Option String) (exps : Expansions) (r : String)
    (hp : p ≠ "")
    (hf : List.lookup p env.expansionsFiles = some exps)
    (hpatch : (expGet exps "is_patch").truthy = true)
    (hrev : expGet exps "revision" = .vStr r)
    (hr : r ≠ "") :
    (get_diff_revision env (some p) b diffRevInit).1 = .ok (.vStr r) ∧
      ["git", "add", "."] ∈ (get_diff_revision env (some p) b diffRevInit).2.trace := by
  have hc := compute_diff_revision_patch env p b exps r hp hf hpatch hrev hr
  unfold get_diff_revision
  rw [show List.lookup ((some p : Option String), b) diffRevInit.cache = none from rfl]
  rw [hc]
  simp [diffRevInit]

/-- C5 witness: in `envC5` (is_patch truthy, revision `abc123`) the call
returns `abc123` and the trace contains the staging command. -/
theorem get_diff_revision_patch_stages_and_returns_revision_witness :
    (get_diff_revision envC5 (some "expansions.yml") none diffRevInit).1
        = .ok (.vStr "abc123") ∧
      ["git", "add", "."]
        ∈ (get_diff_revision envC5 (some "expansions.yml") none diffRevInit).2.trace :=
  get_diff_revision_patch_stages_and_returns_revision envC5 "expansions.yml" none
    [("is_patch", .vBool true), ("revision", .vStr "abc123")] "abc123"
    (by decide) (by decide) (by decide) (by decide) (by decide)

/-- C6: the claim states that for an empty-string expansions path the loader
returns null (which the first conjunct confirms) and that `get_diff_revision`
then delegates to `get_remote_branch_ref` exactly as when the argument is
omitted.  The code disagrees on the second half: `in_ci` tests `is not
None`, so the empty string is treated as in-CI, the loaded `None` document is
dereferenced, and the call raises `AttributeError` instead of delegating,
while the omitted argument does delegate and succeeds. -/
theorem get_diff_revision_empty_expansions_path_attribute_error :
    get_expansions envC6 (some "") = .ok none ∧
    (get_diff_revision envC6 (some "") none diffRevInit).1
      = .error (.attributeError "\x27NoneType\x27 object has no attribute \x27get\x27") ∧
    (get_diff_revision envC6 none none diffRevInit).1 = .ok (.vStr "merge-base-sha") := by
  refine ⟨by decide, by decide, by decide⟩

/-- C7: `get_file_at_revision` returns the content on a successful lookup,
returns null exactly on an underlying failure whose message matches the
path-missing-at-revision message, and propagates every other underlying
failure as a version-control error carrying the original message. -/
theorem get_file_at_revision_contract (env : FileEnv) (file revision : String) :
    (∀ c, env.gitShow revision file = .ok c →
      get_file_at_revision env file revision = .ok (some c)) ∧
    (∀ m, env.gitShow revision file = .error m →
      pyContainsSub m (pathMissingMsg file revision) = true →
      get_file_at_revision env file revision = .ok none) ∧
    (∀ m, env.gitShow revision file = .error m →
      pyContainsSub m (pathMissingMsg file revision) = false →
      get_file_at_revision env file revision = .error (.gitCommandError m)) := by
  refine ⟨?_, ?_, ?_⟩
  · intro c hc
    simp [get_file_at_revision, hc]
  · intro m hm hct
    simp [get_file_at_revision, hm, hct]
  · intro m hm hct
    simp [get_file_at_revision, hm, hct]

/-- C7 witness: in `envC7` the missing-path failure yields null and the
unrelated failure propagates. -/
theorem get_file_at_revision_contract_witness :
    get_file_at_revision envC7 "f.txt" "abc123" = .ok none ∧
    get_file_at_revision envC7 "g.txt" "abc123"
      = .error (.gitCommandError "fatal: bad object xyz") :=
  ⟨(get_file_at_revision_contract envC7 "f.txt" "abc123").2.1
      "Cmd(\x27git\x27) failed: fatal: path \x27f.txt\x27 does not exist in \x27abc123\x27"
      (by decide) (by decide),
   (get_file_at_revision_contract envC7 "g.txt" "abc123").2.2
      "fatal: bad object xyz" (by decide) (by decide)⟩

/-- C8 counterexample: the claim states the downloaded launcher gets mode
0o777 (read/write/execute for owner, group and other).  On a successful
download-install the launcher mode is 0o775, not 0o777: the source omits
`S_IWOTH`. -/
theorem install_bazel_download_mode_not_0o777 :
    installC8c.isOk = true ∧
    eventsAfterC8c.contains
      (.download (bazeliskUrl envC8c) "/home/u/.local/bin/bazelisk") = true ∧
    modeAfterC8c = some 0o775 ∧
    modeAfterC8c ≠ some 0o777 := by
  refine ⟨by decide, by decide, by decide, by decide⟩

/-- C8 (amended): after every successful `install_bazel` run (in particular
after a successful download) the launcher binary at the returned path has
its permission bits set to read/write/execute for owner and group and
read/execute for other, i.e. mode 0o775. -/
theorem install_bazel_sets_mode_0o775 (env : SysEnv) (d : String) (st : FsState)
    (p : String) (stf : FsState)
    (h : install_bazel env d st = .ok (p, stf)) :
    List.lookup p stf.modes = some 0o775 := by
  have hbp : bazelPerms = 0o775 := by decide
  unfold install_bazel at h
  dsimp only at h
  split at h
  · simp only [Except.ok.injEq, Prod.mk.injEq] at h
    obtain ⟨hp, hstf⟩ := h
    subst hp
    rw [← hstf]
    simp [set_bazel_permissions, fsChmod, List.lookup, hbp]
  · split at h
    · split at h
      · exact absurd h (by simp)
      · simp only [Except.ok.injEq, Prod.mk.injEq] at h
        obtain ⟨hp, hstf⟩ := h
        subst hp
        rw [← hstf]
        simp [set_bazel_permissions, fsChmod, List.lookup, hbp]
    · simp only [Except.ok.injEq, Prod.mk.injEq] at h
      obtain ⟨hp, hstf⟩ := h
      subst hp
      rw [← hstf]
      simp [set_bazel_permissions, fsChmod, List.lookup, hbp]

/-- C8 witness: the concrete linux/amd64 install reaches the final state
`stfC8w` and its launcher mode is 0o775. -/
theorem install_bazel_sets_mode_0o775_witness :
    List.lookup "/home/u/.local/bin/bazelisk" stfC8w.modes = some 0o775 :=
  install_bazel_sets_mode_0o775 envC8c "/home/u/.local/bin" emptyFs
    "/home/u/.local/bin/bazelisk" stfC8w (by decide)

/-- C9 counterexample: the claim states an existing file at the alias path
is overwritten so that afterwards the alias always points at the bazelisk
launcher.  On `stC9`, where the alias exists and links elsewhere, the call
returns with the state completely unchanged: nothing is overwritten and the
alias still points at the foreign target. -/
theorem create_bazel_symlink_existing_not_overwritten :
    fsExists stC9 (bazelAliasPath envC9 "/b") = true ∧
    create_bazel_to_bazelisk_symlink envC9 "/b" stC9 = ("/b/bazel", stC9) ∧
    List.lookup "/b/bazel" stC9.links = some "/usr/bin/old-bazelisk" ∧
    List.lookup "/b/bazel" stC9.links ≠ some (pjoin "/b" "bazelisk") := by
  refine ⟨by decide, by decide, by decide, by decide⟩

/-- C9 (amended): `create_bazel_to_bazelisk_symlink` returns the
platform-appropriate alias path; when no file exists there it creates the
alias as a symlink to the bazelisk launcher in the target directory; when a
file already exists there it skips creation and leaves the filesystem
untouched. -/
theorem create_bazel_symlink_cases (env : SysEnv) (d : String) (st : FsState) :
    (create_bazel_to_bazelisk_symlink env d st).1 = bazelAliasPath env d ∧
    (fsExists st (bazelAliasPath env d) = false →
      (create_bazel_to_bazelisk_symlink env d st).2
          = fsSymlink st (pjoin d "bazelisk") (bazelAliasPath env d) ∧
      List.lookup (bazelAliasPath env d)
          (create_bazel_to_bazelisk_symlink env d st).2.links = some (pjoin d "bazelisk")) ∧
    (fsExists st (bazelAliasPath env d) = true →
      (create_bazel_to_bazelisk_symlink env d st).2 = st) := by
  unfold create_bazel_to_bazelisk_symlink
  cases h : fsExists st (bazelAliasPath env d) with
  | false => simp [h, fsSymlink, List.lookup]
  | true => simp [h]

/-- C9 witness: on an empty filesystem the alias is created and points at
the launcher. -/
theorem create_bazel_symlink_cases_witness :
    (create_bazel_to_bazelisk_symlink envC9 "/c" emptyFs).2
        = fsSymlink emptyFs (pjoin "/c" "bazelisk") (bazelAliasPath envC9 "/c") ∧
    List.lookup (bazelAliasPath envC9 "/c")
        (create_bazel_to_bazelisk_symlink envC9 "/c" emptyFs).2.links
        = some (pjoin "/c" "bazelisk") :=
  (create_bazel_symlink_cases envC9 "/c" emptyFs).2.1 (by decide)

/-- Helper: distinct names under one directory give distinct joined paths. -/
theorem pjoin_ne (d : String) {a b : String} (h : a ≠ b) : pjoin d a ≠ pjoin d b := by
  unfold pjoin
  intro he
  apply h
  have hd := congrArg String.data he
  simp only [String.data_append, List.append_assoc] at hd
  exact String.ext (List.append_cancel_left (List.append_cancel_left hd))

/-- Helper: an `install_buildozer` run either leaves the state unchanged or
downloads and chmods exactly the buildozer file (name `buildozer` or
`buildozer.exe`) in the download directory. -/
theorem install_buildozer_shape (env : SysEnv) (d : String) (st : FsState) :
    (install_buildozer env d st).2 = st ∨
    ∃ ext url,
      (ext = "" ∨ ext = ".exe") ∧
      (install_buildozer env d st).2.files = pjoin d ("buildozer" ++ ext) :: st.files ∧
      (install_buildozer env d st).2.events
        = st.events ++ [.download url (pjoin d ("buildozer" ++ ext)),
                        .chmod (pjoin d ("buildozer" ++ ext)) buildozerPerms] := by
  unfold install_buildozer
  cases hp : determine_platform env with
  | none => exact Or.inl rfl
  | some os =>
    cases ha : determine_architecture env with
    | none => exact Or.inl rfl
    | some arch =>
      dsimp only
      by_cases hw : (os == "windows" && arch == "arm64") = true
      · rw [if_pos hw]
        exact Or.inl rfl
      · rw [if_neg hw]
        right
        refine ⟨if os == "windows" then ".exe" else "",
          BUILDOZER_RELEASE_URL ++ ("buildozer-" ++ os ++ "-" ++ arch ++
            (if os == "windows" then ".exe" else "")), ?_, ?_, ?_⟩
        · by_cases hwin : (os == "windows") = true
          · rw [if_pos hwin]; right; rfl
          · rw [if_neg hwin]; left; rfl
        · simp [fsDownload, fsChmod]
        · simp [fsDownload, fsChmod]

/-- C10: when a file named `bazelisk` already exists at the destination path
(and the process starts with an empty event trace), `install_bazel` returns
that path, the only event touching the pre-existing file is the
permission-resetting chmod to 0o775 (in particular nothing is downloaded to
that path), and no SHA-256 integrity verification happens in the whole
run. -/
theorem install_bazel_preexisting_skips_download_and_verify
    (env : SysEnv) (d : String) (st : FsState)
    (hb : fsExists st (pjoin d "bazelisk") = true)
    (he : st.events = []) :
    ∃ stf,
      install_bazel env d st = .ok (pjoin d "bazelisk", stf) ∧
      stf.events.filter (eventTouches (pjoin d "bazelisk"))
        = [.chmod (pjoin d "bazelisk") bazelPerms] ∧
      stf.events.filter isVerifyEvent = [] := by
  refine ⟨set_bazel_permissions (install_buildozer env d st).2 (pjoin d "bazelisk"), ?_, ?_, ?_⟩
  · rcases install_buildozer_shape env d st with hsh | ⟨ext, url, hext, hfiles, hevents⟩
    · unfold install_bazel
      dsimp only
      rw [hsh, if_pos hb]
    · unfold install_bazel
      dsimp only
      have hex : fsExists (install_buildozer env d st).2 (pjoin d "bazelisk") = true := by
        simp [fsExists, hfiles]
        simp [fsExists] at hb
        exact Or.inr hb
      rw [if_pos hex]
  · rcases install_buildozer_shape env d st with hsh | ⟨ext, url, hext, hfiles, hevents⟩
    · simp [set_bazel_permissions, fsChmod, hsh, he, List.filter, eventTouches]
    · have hbz : (pjoin d ("buildozer" ++ ext) == pjoin d "bazelisk") = false := by
        rcases hext with hx | hx <;> subst hx
        · exact beq_eq_false_iff_ne.mpr (pjoin_ne d (by decide))
        · exact beq_eq_false_iff_ne.mpr (pjoin_ne d (by decide))
      simp [set_bazel_permissions, fsChmod, hevents, he, List.filter, eventTouches, hbz]
  · rcases install_buildozer_shape env d st with hsh | ⟨ext, url, hext, hfiles, hevents⟩
    · simp [set_bazel_permissions, fsChmod, hsh, he, List.filter, isVerifyEvent]
    · simp [set_bazel_permissions, fsChmod, hevents, he, List.filter, isVerifyEvent]

/-- C10 witness: on a filesystem already holding the launcher the install
returns its path, only chmods it and verifies nothing. -/
theorem install_bazel_preexisting_skips_download_and_verify_witness :
    ∃ stf,
      install_bazel envC10 "/home/u/.local/bin" stC10
          = .ok (pjoin "/home/u/.local/bin" "bazelisk", stf) ∧
      stf.events.filter (eventTouches (pjoin "/home/u/.local/bin" "bazelisk"))
        = [.chmod (pjoin "/home/u/.local/bin" "bazelisk") bazelPerms] ∧
      stf.events.filter isVerifyEvent = [] :=
  install_bazel_preexisting_skips_download_and_verify envC10 "/home/u/.local/bin" stC10
    (by decide) (by decide)
